import Mathlib

/-!
Shallow embedding of the meal_system repository's proximity-search and
claim-lifecycle core (src/backend/meals/models.py and the claim endpoints of
src/backend/meals/views.py).

Modelling conventions:
* Django `DecimalField` coordinates are `Option ℚ` (`none` = SQL NULL);
  `FloatField`/query coordinates are `ℚ`, cast into `ℝ` where the Python code
  converts to `float` and does trigonometry.
* The serving_date + serving_time pair and `timezone.now()` are collapsed into
  abstract integer timestamps.
* Randomness (`random.choices` in `generate_confirmation_code`) is modelled by
  an explicit candidate stream handed to the function; the loop consumes at
  most 10 candidates, exactly like `for attempt in range(max_attempts)`.
* The database is a `SysState` record (list of meals, list of claims); Django
  `save()` semantics that matter here (auto-deactivation on zero quantity, the
  `unique=True` constraint on `confirmation_code` raising `IntegrityError`)
  are modelled explicitly.
-/

namespace MealSystem

inductive ClaimStatus
  | pending
  | confirmed
  | cancelled
  | collected
deriving DecidableEq, Repr

/-- Meal row (meals/models.py, class Meal). Fields not touched by the claims
under study (name, description, image, contact, ...) are omitted. -/
structure Meal where
  id : ℕ
  provider : ℕ
  quantity : ℤ
  /-- serving_date + serving_time combined into one abstract timestamp. -/
  serving : ℤ
  latitude : Option ℚ
  longitude : Option ℚ
  proximity_radius : ℚ
  is_active : Bool
  is_expired : Bool
deriving DecidableEq, Repr

/-- MealClaim row (meals/models.py, class MealClaim). `pk` is `none` before the
row is first persisted, mirroring `self.pk` being falsy in `save`. -/
structure MealClaim where
  pk : Option ℕ
  meal : ℕ
  beneficiary : ℕ
  quantity_claimed : ℤ
  status : ClaimStatus
  otp_verified : Bool
  otp_verified_at : Option ℤ
  confirmation_code : Option String
  collected_at : Option ℤ
deriving DecidableEq, Repr

/-- Meal.save (models.py:145-154): auto-deactivate when quantity is ≤ 0.
(The original_quantity snapshot concerns meal creation, outside these claims.) -/
def Meal.applySave (m : Meal) : Meal :=
  if m.quantity ≤ 0 then { m with is_active := false } else m

/-- Meal.check_expired (models.py:166-180): when `now > serving_datetime`,
set is_expired, clear is_active, persist, and return True; otherwise return
False and leave the row untouched. -/
def Meal.check_expired (m : Meal) (now : ℤ) : Meal × Bool :=
  if m.serving < now then
    (Meal.applySave { m with is_expired := true, is_active := false }, true)
  else
    (m, false)

/-! Geospatial part (models.py:183-246). -/

/-- Degrees-to-radians conversion used by `math.radians`. -/
noncomputable def toRad (x : ℚ) : ℝ := (x : ℝ) * Real.pi / 180

/-- Haversine body of Meal.distance_from (models.py:194-204):
`c * r` with `c = 2 * asin(sqrt a)` and `r = 6371`. -/
noncomputable def haversine (lat1 lon1 lat2 lon2 : ℚ) : ℝ :=
  let l1 := toRad lat1
  let o1 := toRad lon1
  let l2 := toRad lat2
  let o2 := toRad lon2
  let dlat := l2 - l1
  let dlon := o2 - o1
  let a := Real.sin (dlat / 2) ^ 2 +
    Real.cos l1 * Real.cos l2 * Real.sin (dlon / 2) ^ 2
  2 * Real.arcsin (Real.sqrt a) * 6371

/-- Meal.distance_from (models.py:183-204). The Python guard
`if not self.latitude or not self.longitude` is truthiness: it fires both on
`None` and on a stored value of exactly 0 (`Decimal('0')` is falsy). -/
noncomputable def Meal.distance_from (m : Meal) (lat lon : ℚ) : Option ℝ :=
  match m.latitude, m.longitude with
  | some la, some lo =>
      if la = 0 ∨ lo = 0 then none else some (haversine la lo lat lon)
  | _, _ => none

/-- Meal.is_within_proximity (models.py:206-211): `None` distance means the
meal is shown to everyone; otherwise compare with the meal's own
proximity_radius. -/
noncomputable def Meal.is_within_proximity (m : Meal) (lat lon : ℚ) : Prop :=
  match m.distance_from lat lon with
  | none => True
  | some d => d ≤ (m.proximity_radius : ℝ)

/-- Bounding-box latitude offset of Meal.get_nearby_meals
(models.py:222): `radius_km / 111`. -/
noncomputable def latOffset (radius_km : ℚ) : ℝ := (radius_km : ℝ) / 111

/-- Bounding-box longitude offset of Meal.get_nearby_meals
(models.py:223): `radius_km / (111 * cos(radians(lat)))`. -/
noncomputable def lonOffset (lat radius_km : ℚ) : ℝ :=
  (radius_km : ℝ) / (111 * Real.cos (toRad lat))

/-- The Django queryset filter of Meal.get_nearby_meals (models.py:225-232)
restricted to the coordinate comparisons: rows with NULL latitude or longitude
fail every SQL comparison and are excluded. -/
def Meal.inBoundingBox (m : Meal) (lat lon radius_km : ℚ) : Prop :=
  match m.latitude, m.longitude with
  | some la, some lo =>
      (lat : ℝ) - latOffset radius_km ≤ (la : ℝ) ∧
      (la : ℝ) ≤ (lat : ℝ) + latOffset radius_km ∧
      (lon : ℝ) - lonOffset lat radius_km ≤ (lo : ℝ) ∧
      (lo : ℝ) ≤ (lon : ℝ) + lonOffset lat radius_km
  | _, _ => False

/-- Comparison used to model `nearby.sort(key=lambda x: x['distance'])`
(models.py:245) on lists whose distances are all present: the numeric order.
The `none` branches below only make the comparison total so that `mergeSort`
can be applied; they are never exercised in a returned result, because
`get_nearby_meals` models the `TypeError` the Python sort raises as soon as a
`None` distance is compared (see its definition). -/
noncomputable def distLe (x y : Meal × Option ℝ) : Bool :=
  match x.2, y.2 with
  | some a, some b => decide (a ≤ b)
  | none, _ => true
  | some _, none => false

open Classical in
/-- The `nearby` list built by Meal.get_nearby_meals (models.py:234-242)
before sorting: bounding-box prefilter on active, non-expired meals, then the
exact `is_within_proximity` filter, each survivor paired with its distance. -/
noncomputable def nearbyEntries (db : List Meal) (lat lon radius_km : ℚ) :
    List (Meal × Option ℝ) :=
  ((db.filter fun m =>
    m.is_active && !m.is_expired &&
      decide (m.inBoundingBox lat lon radius_km)).filter fun m =>
        decide (m.is_within_proximity lat lon)).map fun m =>
    (m, m.distance_from lat lon)

open Classical in
/-- Meal.get_nearby_meals (models.py:213-246). A meal whose stored latitude or
longitude is absent or zero can survive the filters with a `None` distance;
`nearby.sort(key=lambda x: x['distance'])` (models.py:245) then raises
`TypeError` the moment that `None` is compared with another entry's key.
CPython's sort compares every element at least once whenever the list has two
or more elements, so the call crashes exactly when the nearby list has at
least two entries and one of them carries a `None` distance — modelled as
`none`. Otherwise the sorted list is returned. -/
noncomputable def Meal.get_nearby_meals (db : List Meal) (lat lon radius_km : ℚ) :
    Option (List (Meal × Option ℝ)) :=
  if 2 ≤ (nearbyEntries db lat lon radius_km).length ∧
      ∃ x ∈ nearbyEntries db lat lon radius_km, x.2 = none then
    none
  else
    some ((nearbyEntries db lat lon radius_km).mergeSort distLe)

/-! Claim lifecycle (models.py:249-360, views.py MealClaimViewSet). -/

/-- All confirmation codes currently stored (what
`MealClaim.objects.filter(confirmation_code=code).exists()` consults). -/
def dbCodes (db : List MealClaim) : List String :=
  db.filterMap (·.confirmation_code)

/-- MealClaim.generate_confirmation_code (models.py:338-354): try up to 10
random 8-character candidates (the `cands` stream models `random.choices`),
returning the first one not already stored; on exhaustion fall back to the
timestamp-derived `f"CODE{int(time.time())}"`. -/
def generate_confirmation_code (cands : List String) (db : List MealClaim)
    (now : ℤ) : String :=
  match (cands.take 10).find? (fun c => !decide (c ∈ dbCodes db)) with
  | some c => c
  | none => "CODE" ++ toString now

/-- Fresh primary key for an inserted row (auto-increment abstraction). -/
def freshPk (db : List MealClaim) : ℕ := db.length + 1

/-- First half of MealClaim.save (models.py:326-334): on first save
(`not self.pk and not self.confirmation_code`) the code is generated
immediately and the claim auto-confirmed, whatever status the caller
supplied. -/
def MealClaim.prep (c : MealClaim) (db : List MealClaim) (cands : List String)
    (now : ℤ) : MealClaim :=
  if c.pk = none ∧ c.confirmation_code = none then
    { c with
      confirmation_code := some (generate_confirmation_code cands db now),
      status := .confirmed,
      otp_verified := true,
      otp_verified_at := some now }
  else c

def insertRow (db : List MealClaim) (c : MealClaim) :
    MealClaim × List MealClaim :=
  ({ c with pk := some (freshPk db) }, db ++ [{ c with pk := some (freshPk db) }])

def updateRow (db : List MealClaim) (c : MealClaim) (i : ℕ) :
    MealClaim × List MealClaim :=
  (c, db.map fun x => if x.pk = some i then c else x)

/-- Second half of MealClaim.save: `super().save()`. The database's
`unique=True` constraint on confirmation_code (models.py:298) makes a
conflicting write raise `IntegrityError`, modelled as `none`; inserts assign
a fresh pk, updates replace the row carrying the same pk. -/
def persist (db : List MealClaim) (c : MealClaim) :
    Option (MealClaim × List MealClaim) :=
  match c.pk with
  | none =>
      match c.confirmation_code with
      | some code => if code ∈ dbCodes db then none else some (insertRow db c)
      | none => some (insertRow db c)
  | some i =>
      match c.confirmation_code with
      | some code =>
          if code ∈ dbCodes (db.filter fun x => x.pk ≠ some i) then none
          else some (updateRow db c i)
      | none => some (updateRow db c i)

/-- MealClaim.save (models.py:326-336) plus the persistence effects that
matter for the claims under study. -/
def MealClaim.save (db : List MealClaim) (c : MealClaim) (cands : List String)
    (now : ℤ) : Option (MealClaim × List MealClaim) :=
  persist db (c.prep db cands now)

/-- MealClaim.mark_as_collected (models.py:356-360), before the `save()`. -/
def MealClaim.mark_as_collected (c : MealClaim) (now : ℤ) : MealClaim :=
  { c with status := .collected, collected_at := some now }

/-- Persistent state: the meals and claims tables. -/
structure SysState where
  meals : List Meal
  claims : List MealClaim
deriving DecidableEq, Repr

def findMeal (st : SysState) (mealId : ℕ) : Option Meal :=
  st.meals.find? fun m => m.id == mealId

def findClaim (db : List MealClaim) (claimId : ℕ) : Option MealClaim :=
  db.find? fun c => c.pk == some claimId

/-- Write a mutated meal row back (Django `meal.save()` row update). -/
def SysState.saveMeal (st : SysState) (m : Meal) : SysState :=
  { st with meals := st.meals.map fun x => if x.id = m.id then m else x }

/-- Duplicate-claim guard of views.py:522-527 and serializers.py:143-148:
a claim for the pair with status pending or confirmed. -/
def hasActiveClaim (db : List MealClaim) (mealId user : ℕ) : Bool :=
  db.any fun c =>
    c.meal == mealId && c.beneficiary == user &&
      (c.status == .pending || c.status == .confirmed)

/-- Any claim at all for the (meal, beneficiary) pair — what the
`unique_together = ['meal', 'beneficiary']` constraint (models.py:317) checks
through DRF's UniqueTogetherValidator. -/
def hasAnyClaim (db : List MealClaim) (mealId user : ℕ) : Bool :=
  db.any fun c => c.meal == mealId && c.beneficiary == user

/-- Digits-only subsequence, as `''.join(filter(str.isdigit, code))`. -/
def digitsOf (s : String) : String := String.mk (s.data.filter Char.isDigit)

/-- Python `str.upper()`. -/
def pyUpper (s : String) : String := String.mk (s.data.map Char.toUpper)

/-- Python `str.strip()`: drop leading and trailing whitespace. -/
def pyStrip (s : String) : String :=
  String.mk
    (((s.data.dropWhile Char.isWhitespace).reverse.dropWhile
      Char.isWhitespace).reverse)

/-- Rejection reasons of the claim-creation endpoint (messages abbreviated to
constructors). -/
inductive CreateErr
  | mealNotFound
  | badQuantity
  | notAvailable
  | expired
  | insufficientQuantity
  | alreadyClaimed
  | uniqueTogether
deriving DecidableEq, Repr

inductive CreateResult
  | created (claim : MealClaim)
  | rejected (e : CreateErr)
  | serverError
deriving DecidableEq, Repr

namespace MealClaimViewSet

/-- Validation performed inside `serializer.is_valid(raise_exception=True)`
(views.py:542-543): DRF's UniqueTogetherValidator for
`unique_together = ['meal', 'beneficiary']`, then MealClaimSerializer.validate
(serializers.py:126-155). Crucially this runs against the meal row as freshly
re-fetched by the serializer's PrimaryKeyRelatedField — i.e. after the view
already decremented and saved it — and its `meal.check_expired()` call can
itself persist expiry flags. -/
def serializerValid (st : SysState) (mealId user : ℕ) (qc : ℤ) (now : ℤ) :
    SysState × Option CreateErr :=
  match findMeal st mealId with
  | none => (st, some .mealNotFound)
  | some meal =>
    if hasAnyClaim st.claims mealId user then (st, some .uniqueTogether)
    else if meal.is_active = false then (st, some .notAvailable)
    else if meal.is_expired then (st, some .expired)
    else
      match meal.check_expired now with
      | (mealE, true) => (st.saveMeal mealE, some .expired)
      | (_, false) =>
        if meal.quantity < qc then (st, some .insufficientQuantity)
        else if hasActiveClaim st.claims mealId user then
          (st, some .alreadyClaimed)
        else (st, none)

/-- MealClaimViewSet.create (views.py:461-597): availability checks, then the
meal decrement is persisted (views.py:535-539) BEFORE the serializer is asked
to validate, and only then is the claim row created. A validation failure
after the decrement leaves the meal mutated with no claim row. -/
def create (st : SysState) (mealId user : ℕ) (qc : ℤ) (cands : List String)
    (now : ℤ) : SysState × CreateResult :=
  match findMeal st mealId with
  | none => (st, .rejected .mealNotFound)
  | some meal =>
    if qc < 1 then (st, .rejected .badQuantity)
    else if meal.is_active = false then (st, .rejected .notAvailable)
    else if meal.is_expired then (st, .rejected .expired)
    else
      match meal.check_expired now with
      | (mealE, true) => (st.saveMeal mealE, .rejected .expired)
      | (_, false) =>
        if meal.quantity < qc then (st, .rejected .insufficientQuantity)
        else if hasActiveClaim st.claims mealId user then
          (st, .rejected .alreadyClaimed)
        else
          let meal1 := { meal with
            quantity := meal.quantity - qc,
            is_active := if meal.quantity - qc = 0 then false
              else meal.is_active }
          let st1 := st.saveMeal meal1.applySave
          match serializerValid st1 mealId user qc now with
          | (st2, some e) => (st2, .rejected e)
          | (st2, none) =>
            let newClaim : MealClaim :=
              { pk := none, meal := mealId, beneficiary := user,
                quantity_claimed := qc, status := .pending,
                otp_verified := false, otp_verified_at := none,
                confirmation_code := none, collected_at := none }
            match MealClaim.save st2.claims newClaim cands now with
            | none => (st2, .serverError)
            | some (claim, claims2) =>
                ({ st2 with claims := claims2 }, .created claim)

inductive VerifyResult
  | missingCode
  | notFound
  | forbidden
  | alreadyCollected
  | cancelled
  | invalidCode
  | verified
  | serverError
deriving DecidableEq, Repr


/-- MealClaimViewSet.verify_collection (views.py:599-708). The submitted code
goes through `.upper().strip()`; the claim must exist, belong to one of the
caller's meals, and be neither collected nor cancelled; then the code is
matched against the full confirmation code, its first 4 characters, or the
first 4 extracted digits, and a match marks the claim collected. A claim row
whose confirmation_code is NULL would make the Python slice raise (500),
modelled as serverError; likewise a dangling meal foreign key. -/
def verify_collection (st : SysState) (claimId : ℕ) (codeRaw : String)
    (user : ℕ) (now : ℤ) : SysState × VerifyResult :=
  let code := pyStrip (pyUpper codeRaw)
  if code = "" then (st, .missingCode)
  else
    match findClaim st.claims claimId with
    | none => (st, .notFound)
    | some claim =>
      match findMeal st claim.meal with
      | none => (st, .serverError)
      | some meal =>
        if meal.provider ≠ user then (st, .forbidden)
        else if claim.status = .collected then (st, .alreadyCollected)
        else if claim.status = .cancelled then (st, .cancelled)
        else
          match claim.confirmation_code with
          | none => (st, .serverError)
          | some cc =>
            if code == cc || code == cc.take 4 ||
                code == (digitsOf cc).take 4 then
              let claim1 := { claim with
                status := ClaimStatus.collected, collected_at := some now }
              match MealClaim.save st.claims claim1 [] now with
              | none => (st, .serverError)
              | some (_, claims2) =>
                  ({ st with claims := claims2 }, .verified)
            else (st, .invalidCode)

inductive MarkResult
  | notFound
  | forbidden
  | marked
  | serverError
deriving DecidableEq, Repr

/-- MealClaimViewSet.mark_collected (views.py:745-773): after the ownership
check it calls `claim.mark_as_collected()` unconditionally — there is no
already-collected or cancelled guard on this path. -/
def mark_collected (st : SysState) (claimId user : ℕ) (now : ℤ) :
    SysState × MarkResult :=
  match findClaim st.claims claimId with
  | none => (st, .notFound)
  | some claim =>
    match findMeal st claim.meal with
    | none => (st, .serverError)
    | some meal =>
      if meal.provider ≠ user then (st, .forbidden)
      else
        match MealClaim.save st.claims (claim.mark_as_collected now) [] now with
        | none => (st, .serverError)
        | some (_, claims2) => ({ st with claims := claims2 }, .marked)

end MealClaimViewSet

/-! Helper lemmas. -/

theorem Meal.eta_inactive (x : Meal) (ha : x.is_active = false) :
    ({ x with is_active := false } : Meal) = x := by
  cases x
  simp_all

theorem Meal.eta_flags (x : Meal) (he : x.is_expired = true)
    (ha : x.is_active = false) :
    ({ x with is_expired := true, is_active := false } : Meal) = x := by
  cases x
  simp_all

theorem Meal.applySave_is_expired (x : Meal) :
    x.applySave.is_expired = x.is_expired := by
  unfold Meal.applySave
  split <;> rfl

theorem Meal.applySave_serving (x : Meal) :
    x.applySave.serving = x.serving := by
  unfold Meal.applySave
  split <;> rfl

theorem Meal.applySave_of_inactive (x : Meal) (ha : x.is_active = false) :
    x.applySave = x := by
  unfold Meal.applySave
  split
  · exact Meal.eta_inactive x ha
  · rfl

theorem prep_of_pk_some (c : MealClaim) (db : List MealClaim)
    (cands : List String) (now : ℤ) (h : c.pk ≠ none) :
    c.prep db cands now = c := by
  unfold MealClaim.prep
  rw [if_neg fun hx => h hx.1]

/-- On the update path, when no other row holds the same code, `save` persists
the row unchanged by replacing the entry with the same pk. -/
theorem save_update_eq (db : List MealClaim) (c : MealClaim) (i : ℕ)
    (cands : List String) (now : ℤ) (hpk : c.pk = some i)
    (hcode : ∀ x ∈ db, x.pk ≠ some i →
      x.confirmation_code ≠ c.confirmation_code) :
    MealClaim.save db c cands now =
      some (c, db.map fun x => if x.pk = some i then c else x) := by
  unfold MealClaim.save
  rw [prep_of_pk_some c db cands now (by simp [hpk])]
  unfold persist
  cases hcc : c.confirmation_code with
  | none => simp [hpk, hcc, updateRow]
  | some s =>
    have hnm : s ∉ dbCodes (List.filter (fun x => !decide (x.pk = some i)) db) := by
      intro hmem
      obtain ⟨x, hxf, hxs⟩ := List.mem_filterMap.mp hmem
      obtain ⟨hxdb, hxne⟩ := List.mem_filter.mp hxf
      exact hcode x hxdb (by simpa using hxne) (hxs.trans hcc.symm)
    simp [hpk, hcc, hnm, updateRow]

/-- Looking up a claim id in a row-replaced table finds the replacement. -/
theorem findClaim_map_update (db : List MealClaim) (i : ℕ) (c1 : MealClaim)
    (hc1 : c1.pk = some i) (h : (findClaim db i).isSome) :
    findClaim (db.map fun x => if x.pk = some i then c1 else x) i = some c1 := by
  induction db with
  | nil => simp [findClaim] at h
  | cons x xs ih =>
    unfold findClaim at h ih ⊢
    by_cases hx : x.pk = some i
    · simp [hx, hc1]
    · have hbe : (x.pk == some i) = false := by
        simpa using hx
      simp only [List.map_cons, if_neg hx, List.find?_cons, hbe] at h ⊢
      exact ih h

/-- Rows other than the replaced one are rows of the original table. -/
theorem mem_map_update_ne (db : List MealClaim) (i : ℕ) (c1 : MealClaim)
    (hc1 : c1.pk = some i) (y : MealClaim)
    (hy : y ∈ db.map fun x => if x.pk = some i then c1 else x)
    (hne : y.pk ≠ some i) : y ∈ db := by
  obtain ⟨x, hx, hxy⟩ := List.mem_map.mp hy
  by_cases hxpk : x.pk = some i
  · rw [if_pos hxpk] at hxy
    subst hxy
    exact absurd hc1 hne
  · rw [if_neg hxpk] at hxy
    subst hxy
    exact hx

/-- A found claim carries the looked-up pk. -/
theorem findClaim_pk (db : List MealClaim) (i : ℕ) (c : MealClaim)
    (h : findClaim db i = some c) : c.pk = some i := by
  have := List.find?_some h
  simpa using this

/-! C7: expiry check. -/

/-- C7: `check_expired` returns true iff the current time is strictly past
serving_date+serving_time; in that case it sets is_expired and clears
is_active; a repeated call at any later time returns true again and leaves the
meal's state exactly unchanged; and the expired flag never reverts from true
to false. -/
theorem check_expired_spec (m : Meal) (now nowLater : ℤ) (hle : now ≤ nowLater) :
    ((m.check_expired now).2 = true ↔ m.serving < now) ∧
    (m.serving < now →
      (m.check_expired now).1.is_expired = true ∧
      (m.check_expired now).1.is_active = false ∧
      Meal.check_expired (m.check_expired now).1 nowLater =
        ((m.check_expired now).1, true)) ∧
    (m.is_expired = true → (m.check_expired now).1.is_expired = true) := by
  by_cases h : m.serving < now
  · have hfire : m.check_expired now =
        (Meal.applySave { m with is_expired := true, is_active := false },
          true) := by
      unfold Meal.check_expired
      rw [if_pos h]
    set m1 := Meal.applySave { m with is_expired := true, is_active := false }
      with hm1
    have hexp : m1.is_expired = true := by
      rw [hm1, Meal.applySave_is_expired]
    have hact : m1.is_active = false := by
      rw [hm1]
      unfold Meal.applySave
      split <;> rfl
    have hserv : m1.serving = m.serving := by
      rw [hm1, Meal.applySave_serving]
    refine ⟨by rw [hfire]; simpa using h, fun _ => ?_, fun _ => by
      rw [hfire]; exact hexp⟩
    rw [hfire]
    refine ⟨hexp, hact, ?_⟩
    have h2 : m1.serving < nowLater := lt_of_lt_of_le (hserv ▸ h) hle
    unfold Meal.check_expired
    rw [if_pos h2, Meal.eta_flags m1 hexp hact, Meal.applySave_of_inactive m1 hact]
  · have hskip : m.check_expired now = (m, false) := by
      unfold Meal.check_expired
      rw [if_neg h]
    refine ⟨by rw [hskip]; simpa using h, fun hc => absurd hc h, fun he => by
      rw [hskip]; exact he⟩

/-- Concrete meal used by witnesses of the expiry and proximity theorems. -/
def mealW : Meal :=
  { id := 1, provider := 1, quantity := 4, serving := 2, latitude := none,
    longitude := some 3, proximity_radius := 0, is_active := true,
    is_expired := false }

/-- Witness for C7 at a concrete expired meal (serving = 2, now = 3 ≤ 4). -/
theorem check_expired_spec_witness :
    (3 : ℤ) ≤ 4 ∧
    (((mealW.check_expired 3).2 = true ↔ mealW.serving < 3) ∧
      (mealW.serving < 3 →
        (mealW.check_expired 3).1.is_expired = true ∧
        (mealW.check_expired 3).1.is_active = false ∧
        Meal.check_expired (mealW.check_expired 3).1 4 =
          ((mealW.check_expired 3).1, true)) ∧
      (mealW.is_expired = true → (mealW.check_expired 3).1.is_expired = true)) :=
  ⟨by decide, check_expired_spec mealW 3 4 (by decide)⟩

/-! C8 and C9: permissive fallback for absent or zero coordinates. -/

/-- C8: a meal lacking stored coordinates is within proximity of every query
point, whatever its proximity_radius (including 0). -/
theorem no_coords_within_proximity (m : Meal) (lat lon : ℚ)
    (h : m.latitude = none ∨ m.longitude = none) :
    m.is_within_proximity lat lon := by
  unfold Meal.is_within_proximity Meal.distance_from
  rcases hla : m.latitude with _ | a <;> rcases hlo : m.longitude with _ | b <;>
    simp_all

/-- Witness for C8: `mealW` has no latitude and proximity_radius 0, yet is
within proximity of the query point (7, 8). -/
theorem no_coords_within_proximity_witness :
    (mealW.latitude = none ∨ mealW.longitude = none) ∧
      mealW.is_within_proximity 7 8 :=
  ⟨Or.inl rfl, no_coords_within_proximity mealW 7 8 (Or.inl rfl)⟩

/-- C9: a stored latitude or longitude of exactly 0 is falsy in Python, so the
meal is treated as unlocated: distance_from yields None and the meal is within
proximity of every query point. -/
theorem zero_coord_treated_as_missing (m : Meal) (lat lon : ℚ)
    (h : m.latitude = some 0 ∨ m.longitude = some 0) :
    m.distance_from lat lon = none ∧ m.is_within_proximity lat lon := by
  unfold Meal.is_within_proximity Meal.distance_from
  rcases hla : m.latitude with _ | a <;> rcases hlo : m.longitude with _ | b <;>
    simp_all

/-! C10: algebraic properties of the Haversine distance. -/

theorem sin_half_sub_sq (u v : ℝ) :
    Real.sin ((u - v) / 2) ^ 2 = Real.sin ((v - u) / 2) ^ 2 := by
  rw [show (u - v) / 2 = -((v - u) / 2) by ring, Real.sin_neg]
  ring

theorem haversine_symm (a b c d : ℚ) : haversine a b c d = haversine c d a b := by
  unfold haversine
  dsimp only
  rw [sin_half_sub_sq (toRad c) (toRad a), sin_half_sub_sq (toRad d) (toRad b),
    mul_comm (Real.cos (toRad a)) (Real.cos (toRad c))]

theorem haversine_self (a b : ℚ) : haversine a b a b = 0 := by
  unfold haversine
  dsimp only
  simp

/-- C10: for meals whose stored coordinates are present (and nonzero — a zero
coordinate is treated as absent, see the falsy guard in distance_from), the
Haversine distance is symmetric, and the distance from a meal to its own
coordinates is 0. -/
theorem distance_symm_and_self (m₁ m₂ : Meal) (a b c d : ℚ)
    (h1 : m₁.latitude = some a) (h2 : m₁.longitude = some b)
    (h3 : m₂.latitude = some c) (h4 : m₂.longitude = some d)
    (ha : a ≠ 0) (hb : b ≠ 0) (hc : c ≠ 0) (hd : d ≠ 0) :
    m₁.distance_from c d = m₂.distance_from a b ∧
      m₁.distance_from a b = some 0 := by
  unfold Meal.distance_from
  simp only [h1, h2, h3, h4]
  simp only [ha, hb, hc, hd, or_self, or_false, false_or, if_false]
  exact ⟨congrArg some (haversine_symm a b c d), by rw [haversine_self]⟩

/-- Concrete meal at (1, 2) used by the C10 witness. -/
def mealP : Meal :=
  { id := 3, provider := 1, quantity := 4, serving := 2, latitude := some 1,
    longitude := some 2, proximity_radius := 5, is_active := true,
    is_expired := false }

/-- Concrete meal at (3, 4) used by the C10 witness. -/
def mealQ : Meal :=
  { id := 4, provider := 1, quantity := 4, serving := 2, latitude := some 3,
    longitude := some 4, proximity_radius := 5, is_active := true,
    is_expired := false }

/-- Witness for C10 at the concrete coordinate pairs (1,2) and (3,4). -/
theorem distance_symm_and_self_witness :
    ((1 : ℚ) ≠ 0 ∧ (2 : ℚ) ≠ 0 ∧ (3 : ℚ) ≠ 0 ∧ (4 : ℚ) ≠ 0) ∧
      (mealP.distance_from 3 4 = mealQ.distance_from 1 2 ∧
        mealP.distance_from 1 2 = some 0) :=
  ⟨⟨by norm_num, by norm_num, by norm_num, by norm_num⟩,
    distance_symm_and_self mealP mealQ 1 2 3 4 rfl rfl rfl rfl
      (by norm_num) (by norm_num) (by norm_num) (by norm_num)⟩

/-! C1 and C3: the claim-creation endpoint loses quantity on failure. The view
persists the decremented meal (views.py:535-539) before `serializer.is_valid`
re-validates against the freshly decremented row (serializers.py:126-155), so
a claim for more than half of the remaining servings — in particular for the
last serving — is rejected after the meal was already mutated. -/

/-- Fresh 1-serving meal offered by provider 2. -/
def mealOne : Meal :=
  { id := 1, provider := 2, quantity := 1, serving := 1000, latitude := none,
    longitude := none, proximity_radius := 5, is_active := true,
    is_expired := false }

/-- State holding only `mealOne` and no claims. -/
def stOne : SysState := { meals := [mealOne], claims := [] }

/-- C1 (code bug): beneficiary 3 claims the single serving of the fresh,
active, unexpired `mealOne`: the request is rejected ("no longer available",
raised by the serializer because the view's own decrement deactivated the
meal), yet the meal ends at quantity 0 and inactive while no claim row exists
— a failure that leaves partial state. -/
theorem create_decrements_without_claim :
    (MealClaimViewSet.create stOne 1 3 1 ["AAAA1111"] 50).2 =
      .rejected .notAvailable ∧
    (MealClaimViewSet.create stOne 1 3 1 ["AAAA1111"] 50).1.meals =
      [{ mealOne with quantity := 0, is_active := false }] ∧
    (MealClaimViewSet.create stOne 1 3 1 ["AAAA1111"] 50).1.claims = [] := by
  decide

/-- Fresh 3-serving meal offered by provider 2. -/
def mealThree : Meal := { mealOne with quantity := 3 }

/-- State holding only `mealThree` and no claims. -/
def stThree : SysState := { meals := [mealThree], claims := [] }

/-- C3 (code bug): beneficiary 3 claims 2 of the 3 servings of the active,
unexpired `mealThree` with no prior claims — every rejection condition of the
claim is false, so the claim says this must succeed. The code instead rejects
with an insufficient-quantity error (the serializer re-checks quantity after
the view already decremented 3 to 1), leaving quantity 1 and no claim row. -/
theorem create_rejects_despite_sufficient_quantity :
    mealThree.is_active = true ∧ mealThree.is_expired = false ∧
    mealThree.quantity = 3 ∧ ¬ mealThree.quantity < 2 ∧
    stThree.claims = [] ∧
    (MealClaimViewSet.create stThree 1 3 2 ["AAAA1111"] 50).2 =
      .rejected .insufficientQuantity ∧
    (MealClaimViewSet.create stThree 1 3 2 ["AAAA1111"] 50).1.meals =
      [{ mealThree with quantity := 1 }] ∧
    (MealClaimViewSet.create stThree 1 3 2 ["AAAA1111"] 50).1.claims = [] := by
  decide

/-! C5: mark_collected has no already-collected guard. -/

/-- Confirmed claim of beneficiary 3 on `mealOne`, code "AAAA1111". -/
def claimC : MealClaim :=
  { pk := some 1, meal := 1, beneficiary := 3, quantity_claimed := 1,
    status := .confirmed, otp_verified := true, otp_verified_at := some 50,
    confirmation_code := some "AAAA1111", collected_at := none }

/-- State holding `mealOne` (provider 2) and the confirmed `claimC`. -/
def stMark : SysState := { meals := [mealOne], claims := [claimC] }

/-- C5 counterexample: provider 2 invokes mark_collected twice on the same
claim (at times 100 and 200). Contrary to the claim, the second call does NOT
fail with "already collected": both calls succeed, and the claim's
collected_at is overwritten from 100 to 200 between the calls. -/
theorem mark_collected_twice_succeeds_twice :
    (MealClaimViewSet.mark_collected stMark 1 2 100).2 = .marked ∧
    (MealClaimViewSet.mark_collected
      (MealClaimViewSet.mark_collected stMark 1 2 100).1 1 2 200).2 =
        .marked ∧
    (MealClaimViewSet.mark_collected stMark 1 2 100).1.claims =
      [{ claimC with status := .collected, collected_at := some 100 }] ∧
    (MealClaimViewSet.mark_collected
      (MealClaimViewSet.mark_collected stMark 1 2 100).1 1 2 200).1.claims =
      [{ claimC with status := .collected, collected_at := some 200 }] := by
  decide

/-- C5 amended: mark_collected transitions any claim of the caller's meal to
collected unconditionally, so invoking it twice succeeds BOTH times; the
second call overwrites collected_at with the later timestamp (meals are
untouched by both calls). Only verify_collection reports "already collected".
The hypothesis on confirmation codes says no other row shares this claim's
code, which is what the database's uniqueness constraint maintains. -/
theorem mark_collected_overwrites (st : SysState) (cid user : ℕ)
    (now1 now2 : ℤ) (claim : MealClaim) (meal : Meal)
    (hc : findClaim st.claims cid = some claim)
    (hm : findMeal st claim.meal = some meal)
    (hp : meal.provider = user)
    (hcode : ∀ x ∈ st.claims, x.pk ≠ some cid →
      x.confirmation_code ≠ claim.confirmation_code) :
    (MealClaimViewSet.mark_collected st cid user now1).2 = .marked ∧
    (MealClaimViewSet.mark_collected st cid user now1).1.meals = st.meals ∧
    findClaim (MealClaimViewSet.mark_collected st cid user now1).1.claims
        cid =
      some { claim with status := .collected, collected_at := some now1 } ∧
    (MealClaimViewSet.mark_collected
      (MealClaimViewSet.mark_collected st cid user now1).1 cid user now2).2 =
        .marked ∧
    findClaim (MealClaimViewSet.mark_collected
        (MealClaimViewSet.mark_collected st cid user now1).1 cid user
        now2).1.claims cid =
      some { claim with status := .collected, collected_at := some now2 } := by
  have hcpk : claim.pk = some cid := findClaim_pk st.claims cid claim hc
  set c1 : MealClaim :=
    { claim with status := .collected, collected_at := some now1 } with hc1def
  have hc1pk : c1.pk = some cid := hcpk
  have hsave1 : MealClaim.save st.claims (claim.mark_as_collected now1) []
      now1 =
      some (c1, st.claims.map fun x => if x.pk = some cid then c1 else x) :=
    save_update_eq st.claims c1 cid [] now1 hc1pk hcode
  have hrun1 : MealClaimViewSet.mark_collected st cid user now1 =
      ({ st with
          claims := st.claims.map fun x => if x.pk = some cid then c1 else x },
        .marked) := by
    unfold MealClaimViewSet.mark_collected
    rw [hc]
    simp only [hm, hsave1]
    rw [if_neg (by simp [hp])]
  refine ⟨by rw [hrun1], by rw [hrun1], ?_, ?_, ?_⟩
  · rw [hrun1]
    exact findClaim_map_update st.claims cid c1 hc1pk (by simp [hc])
  all_goals {
    have hfind1 : findClaim
        (st.claims.map fun x => if x.pk = some cid then c1 else x) cid =
        some c1 :=
      findClaim_map_update st.claims cid c1 hc1pk (by simp [hc])
    set db1 : List MealClaim :=
      st.claims.map fun x => if x.pk = some cid then c1 else x with hdb1
    set c2 : MealClaim :=
      { claim with status := .collected, collected_at := some now2 } with hc2def
    have hc2pk : c2.pk = some cid := hcpk
    have hcode1 : ∀ x ∈ db1, x.pk ≠ some cid →
        x.confirmation_code ≠ c2.confirmation_code := by
      intro x hx hne
      exact hcode x (mem_map_update_ne st.claims cid c1 hc1pk x hx hne) hne
    have hsave2 : MealClaim.save db1 (c1.mark_as_collected now2) [] now2 =
        some (c2, db1.map fun x => if x.pk = some cid then c2 else x) :=
      save_update_eq db1 c2 cid [] now2 hc2pk hcode1
    have hrun2 : MealClaimViewSet.mark_collected
        (MealClaimViewSet.mark_collected st cid user now1).1 cid user now2 =
        ({ st with
            claims := db1.map fun x => if x.pk = some cid then c2 else x },
          .marked) := by
      rw [hrun1]
      unfold MealClaimViewSet.mark_collected
      rw [hfind1]
      have hm1 : findMeal { st with claims := db1 } c1.meal = some meal := hm
      simp only [hm1, hsave2]
      rw [if_neg (by simp [hp])]
    first
      | (rw [hrun2]
         exact findClaim_map_update db1 cid c2 hc2pk (by simp [hfind1]))
      | rw [hrun2]
  }

/-- Witness for the amended C5 theorem at the concrete `stMark` state. -/
theorem mark_collected_overwrites_witness :
    (findClaim stMark.claims 1 = some claimC ∧
      findMeal stMark claimC.meal = some mealOne ∧
      mealOne.provider = 2 ∧
      ∀ x ∈ stMark.claims, x.pk ≠ some 1 →
        x.confirmation_code ≠ claimC.confirmation_code) ∧
    ((MealClaimViewSet.mark_collected stMark 1 2 100).2 = .marked ∧
      (MealClaimViewSet.mark_collected stMark 1 2 100).1.meals =
        stMark.meals ∧
      findClaim (MealClaimViewSet.mark_collected stMark 1 2 100).1.claims 1 =
        some { claimC with status := .collected, collected_at := some 100 } ∧
      (MealClaimViewSet.mark_collected
        (MealClaimViewSet.mark_collected stMark 1 2 100).1 1 2 200).2 =
          .marked ∧
      findClaim (MealClaimViewSet.mark_collected
          (MealClaimViewSet.mark_collected stMark 1 2 100).1 1 2
          200).1.claims 1 =
        some { claimC with status := .collected, collected_at := some 200 }) :=
  ⟨⟨by decide, by decide, by decide, by decide⟩,
    mark_collected_overwrites stMark 1 2 100 200 claimC mealOne (by decide)
      (by decide) (by decide) (by decide)⟩

/-! C6: confirmation-code assignment and uniqueness. -/

/-- The retry loop of generate_confirmation_code either returns one of the
first 10 candidates, fresh with respect to the stored codes, or — when all 10
collide — the timestamp fallback. -/
theorem generate_spec (cands : List String) (db : List MealClaim) (now : ℤ) :
    (generate_confirmation_code cands db now ∈ cands.take 10 ∧
      generate_confirmation_code cands db now ∉ dbCodes db) ∨
    ((∀ x ∈ cands.take 10, x ∈ dbCodes db) ∧
      generate_confirmation_code cands db now = "CODE" ++ toString now) := by
  unfold generate_confirmation_code
  cases hf : (cands.take 10).find? (fun c => !decide (c ∈ dbCodes db)) with
  | some c =>
    left
    refine ⟨List.mem_of_find?_eq_some hf, ?_⟩
    have := List.find?_some hf
    simpa using this
  | none =>
    right
    refine ⟨?_, rfl⟩
    intro x hx
    have := List.find?_eq_none.mp hf x hx
    simpa using this

/-- C6: a fresh claim (no pk, no code) is assigned its confirmation code at
creation — the generated one — and is auto-confirmed regardless of the status
the caller supplied; a successful insert keeps the stored codes pairwise
distinct; the generated code is a fresh random candidate or the timestamp
fallback on exhaustion of the 10 attempts; and saving an already-persisted
claim never reassigns code or status (the row is persisted exactly as is). -/
theorem confirmation_code_assigned_once_unique
    (db : List MealClaim) (c u : MealClaim) (cands : List String) (now : ℤ)
    (hpk : c.pk = none) (hcc : c.confirmation_code = none)
    (hnodup : (dbCodes db).Nodup) (hu : u.pk ≠ none) :
    (∀ c' db', MealClaim.save db c cands now = some (c', db') →
      c'.confirmation_code =
        some (generate_confirmation_code cands db now) ∧
      c'.status = .confirmed ∧
      (dbCodes db').Nodup) ∧
    ((generate_confirmation_code cands db now ∈ cands.take 10 ∧
        generate_confirmation_code cands db now ∉ dbCodes db) ∨
      ((∀ x ∈ cands.take 10, x ∈ dbCodes db) ∧
        generate_confirmation_code cands db now = "CODE" ++ toString now)) ∧
    (∀ u' db', MealClaim.save db u cands now = some (u', db') → u' = u) := by
  refine ⟨?_, generate_spec cands db now, ?_⟩
  · intro c' db' hsave
    unfold MealClaim.save MealClaim.prep at hsave
    rw [if_pos ⟨hpk, hcc⟩] at hsave
    unfold persist at hsave
    dsimp only at hsave
    rw [hpk] at hsave
    dsimp only at hsave
    by_cases hg : generate_confirmation_code cands db now ∈ dbCodes db
    · rw [if_pos hg] at hsave
      cases hsave
    · rw [if_neg hg] at hsave
      simp only [insertRow, Option.some.injEq, Prod.mk.injEq] at hsave
      obtain ⟨h1, h2⟩ := hsave
      subst h1
      subst h2
      refine ⟨rfl, rfl, ?_⟩
      have hco : dbCodes (db ++
          [{ c with
              confirmation_code :=
                some (generate_confirmation_code cands db now),
              status := .confirmed, otp_verified := true,
              otp_verified_at := some now,
              pk := some (freshPk db) }]) =
          dbCodes db ++ [generate_confirmation_code cands db now] := by
        simp [dbCodes, List.filterMap_append]
      rw [hco]
      simp [List.nodup_append, hnodup, hg]
  · intro u' db' hsave
    unfold MealClaim.save at hsave
    rw [prep_of_pk_some u db cands now hu] at hsave
    unfold persist at hsave
    cases hupk : u.pk with
    | none => exact absurd hupk hu
    | some i =>
      rw [hupk] at hsave
      dsimp only at hsave
      cases hcc2 : u.confirmation_code with
      | none =>
        rw [hcc2] at hsave
        dsimp only [updateRow] at hsave
        simp only [Option.some.injEq, Prod.mk.injEq] at hsave
        exact hsave.1.symm
      | some s =>
        rw [hcc2] at hsave
        dsimp only at hsave
        by_cases hmem : s ∈ dbCodes (db.filter fun x => x.pk ≠ some i)
        · rw [if_pos hmem] at hsave
          cases hsave
        · rw [if_neg hmem] at hsave
          dsimp only [updateRow] at hsave
          simp only [Option.some.injEq, Prod.mk.injEq] at hsave
          exact hsave.1.symm

/-- New claim record as the serializer builds it (no pk, no code yet). -/
def claimNew : MealClaim :=
  { pk := none, meal := 1, beneficiary := 4, quantity_claimed := 1,
    status := .pending, otp_verified := false, otp_verified_at := none,
    confirmation_code := none, collected_at := none }

/-- Witness for C6: creating `claimNew` against a store already holding code
"AAAA1111" with the candidate stream ["AAAA1111", "BBBB2222"] (first candidate
collides, the retry takes the second), and re-saving the stored `claimC`. -/
theorem confirmation_code_assigned_once_unique_witness :
    (claimNew.pk = none ∧ claimNew.confirmation_code = none ∧
      (dbCodes [claimC]).Nodup ∧ claimC.pk ≠ none) ∧
    ((∀ c' db', MealClaim.save [claimC] claimNew ["AAAA1111", "BBBB2222"] 60 =
        some (c', db') →
      c'.confirmation_code =
        some (generate_confirmation_code ["AAAA1111", "BBBB2222"] [claimC]
          60) ∧
      c'.status = .confirmed ∧
      (dbCodes db').Nodup) ∧
    ((generate_confirmation_code ["AAAA1111", "BBBB2222"] [claimC] 60 ∈
        (["AAAA1111", "BBBB2222"] : List String).take 10 ∧
        generate_confirmation_code ["AAAA1111", "BBBB2222"] [claimC] 60 ∉
          dbCodes [claimC]) ∨
      ((∀ x ∈ (["AAAA1111", "BBBB2222"] : List String).take 10,
          x ∈ dbCodes [claimC]) ∧
        generate_confirmation_code ["AAAA1111", "BBBB2222"] [claimC] 60 =
          "CODE" ++ toString (60 : ℤ))) ∧
    (∀ u' db', MealClaim.save [claimC] claimC ["AAAA1111", "BBBB2222"] 60 =
        some (u', db') → u' = claimC)) :=
  ⟨⟨by decide, by decide, by decide, by decide⟩,
    confirmation_code_assigned_once_unique [claimC] claimNew claimC
      ["AAAA1111", "BBBB2222"] 60 (by decide) (by decide) (by decide)
      (by decide)⟩

/-! C4: verification gateway. -/

/-- C4: verify_collection fails with not-found when the claim id does not
resolve; with forbidden when the caller is not the meal's provider; with
already-collected when the claim is collected; with cancelled when it is
cancelled — each checked before any code matching. Otherwise it succeeds iff
the submitted code equals the full confirmation code, or its first 4
characters, or the first 4 digits extracted from it, marking the claim
collected on success and failing with invalid-code otherwise. The submitted
code is assumed already normalized (uppercase, stripped), as the endpoint
itself applies `.upper().strip()` first. -/
theorem verify_collection_spec (st : SysState) (cid user : ℕ) (code : String)
    (now : ℤ) (hfmt : pyStrip (pyUpper code) = code) (hne : code ≠ "") :
    (findClaim st.claims cid = none →
      MealClaimViewSet.verify_collection st cid code user now =
        (st, .notFound)) ∧
    (∀ claim meal, findClaim st.claims cid = some claim →
      findMeal st claim.meal = some meal →
      (meal.provider ≠ user →
        MealClaimViewSet.verify_collection st cid code user now =
          (st, .forbidden)) ∧
      (meal.provider = user →
        (claim.status = .collected →
          MealClaimViewSet.verify_collection st cid code user now =
            (st, .alreadyCollected)) ∧
        (claim.status ≠ .collected → claim.status = .cancelled →
          MealClaimViewSet.verify_collection st cid code user now =
            (st, .cancelled)) ∧
        (claim.status ≠ .collected → claim.status ≠ .cancelled →
          ∀ cc, claim.confirmation_code = some cc →
          (¬(code = cc ∨ code = cc.take 4 ∨ code = (digitsOf cc).take 4) →
            MealClaimViewSet.verify_collection st cid code user now =
              (st, .invalidCode)) ∧
          ((code = cc ∨ code = cc.take 4 ∨ code = (digitsOf cc).take 4) →
            (∀ x ∈ st.claims, x.pk ≠ some cid →
              x.confirmation_code ≠ claim.confirmation_code) →
            (MealClaimViewSet.verify_collection st cid code user now).2 =
              .verified ∧
            findClaim (MealClaimViewSet.verify_collection st cid code user
                now).1.claims cid =
              some { claim with status := .collected, collected_at := some now } ∧
            (MealClaimViewSet.verify_collection st cid code user
                now).1.meals = st.meals)))) := by
  constructor
  · intro h
    unfold MealClaimViewSet.verify_collection
    dsimp only
    rw [hfmt, if_neg hne, h]
  · intro claim meal hc hm
    constructor
    · intro hprov
      unfold MealClaimViewSet.verify_collection
      dsimp only
      rw [hfmt, if_neg hne, hc]
      dsimp only
      rw [hm]
      dsimp only
      rw [if_pos hprov]
    · intro hprov
      refine ⟨?_, ?_, ?_⟩
      · intro hcol
        unfold MealClaimViewSet.verify_collection
        dsimp only
        rw [hfmt, if_neg hne, hc]
        dsimp only
        rw [hm]
        dsimp only
        rw [if_neg (by simp [hprov]), if_pos hcol]
      · intro hncol hcan
        unfold MealClaimViewSet.verify_collection
        dsimp only
        rw [hfmt, if_neg hne, hc]
        dsimp only
        rw [hm]
        dsimp only
        rw [if_neg (by simp [hprov]), if_neg hncol, if_pos hcan]
      · intro hncol hncan cc hcc
        have hrun : MealClaimViewSet.verify_collection st cid code user now =
            (if code == cc || code == cc.take 4 ||
                code == (digitsOf cc).take 4 then
              match MealClaim.save st.claims ({ claim with status := ClaimStatus.collected, confirmation_code := some cc, collected_at := some now }) [] now with
              | none => (st, .serverError)
              | some (_, claims2) => ({ st with claims := claims2 }, .verified)
            else (st, .invalidCode)) := by
          unfold MealClaimViewSet.verify_collection
          dsimp only
          rw [hfmt, if_neg hne, hc]
          dsimp only
          rw [hm]
          dsimp only
          rw [if_neg (by simp [hprov]), if_neg hncol, if_neg hncan, hcc]
        constructor
        · intro hnomatch
          rw [hrun, if_neg (by simpa [or_assoc, and_assoc] using hnomatch)]
        · intro hmatch hcode
          have hcpk : claim.pk = some cid := findClaim_pk st.claims cid claim hc
          have hcode' : ∀ x ∈ st.claims, x.pk ≠ some cid →
              x.confirmation_code ≠ some cc := fun x hx hne =>
            hcc ▸ hcode x hx hne
          have hsave : MealClaim.save st.claims ({ claim with status := ClaimStatus.collected, confirmation_code := some cc, collected_at := some now }) [] now =
              some (({ claim with status := ClaimStatus.collected, confirmation_code := some cc, collected_at := some now } : MealClaim),
                st.claims.map fun x =>
                  if x.pk = some cid then { claim with status := ClaimStatus.collected, confirmation_code := some cc, collected_at := some now }
                  else x) :=
            save_update_eq st.claims _ cid [] now hcpk hcode'
          rw [hrun, if_pos (by simpa [or_assoc] using hmatch), hsave]
          refine ⟨rfl, ?_, rfl⟩
          rw [hcc]
          exact findClaim_map_update st.claims cid _ hcpk (by simp [hc])

/-- Witness for C4: provider 2 verifies `claimC` (code "AAAA1111") in the
concrete `stMark` state by submitting the 4-character prefix "AAAA". -/
theorem verify_collection_spec_witness :
    (pyStrip (pyUpper "AAAA") = "AAAA" ∧ ("AAAA" : String) ≠ "" ∧
      findClaim stMark.claims 1 = some claimC ∧
      findMeal stMark claimC.meal = some mealOne ∧
      mealOne.provider = 2 ∧ claimC.status ≠ .collected ∧
      claimC.status ≠ .cancelled ∧
      claimC.confirmation_code = some "AAAA1111" ∧
      ("AAAA" : String) = ("AAAA1111" : String).take 4 ∧
      ∀ x ∈ stMark.claims, x.pk ≠ some 1 →
        x.confirmation_code ≠ claimC.confirmation_code) ∧
    ((MealClaimViewSet.verify_collection stMark 1 "AAAA" 2 300).2 =
        .verified ∧
      findClaim (MealClaimViewSet.verify_collection stMark 1 "AAAA" 2
          300).1.claims 1 =
        some { claimC with status := .collected, collected_at := some 300 } ∧
      (MealClaimViewSet.verify_collection stMark 1 "AAAA" 2 300).1.meals =
        stMark.meals) :=
  ⟨⟨by decide, by decide, by decide, by decide, by decide, by decide,
      by decide, by decide, by decide, by decide⟩,
    ((((verify_collection_spec stMark 1 2 "AAAA" 300 (by decide)
        (by decide)).2 claimC mealOne (by decide) (by decide)).2
        (by decide)).2.2 (by decide) (by decide) "AAAA1111" (by decide)).2
      (Or.inr (Or.inl (by decide))) (by decide)⟩

/-! C2: nearby-meal search. -/

theorem distLe_trans (x y z : Meal × Option ℝ) (h1 : distLe x y = true)
    (h2 : distLe y z = true) : distLe x z = true := by
  unfold distLe at *
  rcases x with ⟨mx, _ | a⟩ <;> rcases y with ⟨my, _ | b⟩ <;>
    rcases z with ⟨mz, _ | c⟩ <;> simp_all
  exact le_trans h1 h2

theorem distLe_total (x y : Meal × Option ℝ) :
    (distLe x y || distLe y x) = true := by
  unfold distLe
  rcases x with ⟨mx, _ | a⟩ <;> rcases y with ⟨my, _ | b⟩ <;> simp_all
  exact le_total a b

/-- C2 (amended): when no crash occurs, get_nearby_meals returns exactly the
active, non-expired meals inside the rough bounding box whose exact filter
passes — i.e. whose Haversine distance is at most the meal's OWN
proximity_radius (trivially true when the meal's stored coordinates are
absent or zero) — each paired with its distance, sorted ascending by
distance wherever distances are defined; the supplied radius_km only shapes
the bounding box. The call crashes with the sort's TypeError exactly when the
filtered candidate list has at least two entries and one of them carries an
undefined (None) distance. -/
theorem get_nearby_meals_characterization (db : List Meal)
    (lat lon radius_km : ℚ) :
    (∀ l, Meal.get_nearby_meals db lat lon radius_km = some l →
      (∀ m d, (m, d) ∈ l ↔
        (m ∈ db ∧ d = m.distance_from lat lon ∧ m.is_active = true ∧
          m.is_expired = false ∧ m.inBoundingBox lat lon radius_km ∧
          m.is_within_proximity lat lon)) ∧
      l.Pairwise (fun x y => ∀ a b, x.2 = some a → y.2 = some b → a ≤ b)) ∧
    (Meal.get_nearby_meals db lat lon radius_km = none ↔
      (2 ≤ (nearbyEntries db lat lon radius_km).length ∧
        ∃ x ∈ nearbyEntries db lat lon radius_km, x.2 = none)) := by
  classical
  constructor
  · intro l hl
    unfold Meal.get_nearby_meals at hl
    by_cases hcrash : 2 ≤ (nearbyEntries db lat lon radius_km).length ∧
        ∃ x ∈ nearbyEntries db lat lon radius_km, x.2 = none
    · rw [if_pos hcrash] at hl
      cases hl
    · rw [if_neg hcrash] at hl
      obtain rfl := Option.some.inj hl
      constructor
      · intro m d
        rw [List.mem_mergeSort]
        unfold nearbyEntries
        constructor
        · intro h
          obtain ⟨m', hm', heq⟩ := List.mem_map.mp h
          obtain ⟨h1, h2⟩ := Prod.mk.injEq .. ▸ heq
          subst h1
          obtain ⟨hmf, hprox⟩ := List.mem_filter.mp hm'
          obtain ⟨hmdb, hflags⟩ := List.mem_filter.mp hmf
          simp only [Bool.and_eq_true, Bool.not_eq_true', decide_eq_true_eq]
            at hflags
          exact ⟨hmdb, h2.symm, hflags.1.1, hflags.1.2, hflags.2,
            of_decide_eq_true hprox⟩
        · rintro ⟨hmdb, rfl, hact, hexp, hbox, hprox⟩
          refine List.mem_map.mpr ⟨m, List.mem_filter.mpr ⟨List.mem_filter.mpr
            ⟨hmdb, ?_⟩, ?_⟩, rfl⟩
          · simp [hact, hexp, hbox]
          · simp [hprox]
      · refine List.Pairwise.imp ?_
          (List.sorted_mergeSort distLe_trans distLe_total _)
        intro x y h a b ha hb
        unfold distLe at h
        rw [ha, hb] at h
        exact of_decide_eq_true h
  · unfold Meal.get_nearby_meals
    by_cases hcrash : 2 ≤ (nearbyEntries db lat lon radius_km).length ∧
        ∃ x ∈ nearbyEntries db lat lon radius_km, x.2 = none
    · rw [if_pos hcrash]
      exact iff_of_true rfl hcrash
    · rw [if_neg hcrash]
      exact iff_of_false (by simp) hcrash

/-- Meal 2.2 km north of the query point (10, 20), but carrying a small
proximity_radius of 0.5 km: latitude 10.02 = 501/50. -/
def mealNear : Meal :=
  { id := 9, provider := 1, quantity := 5, serving := 1000,
    latitude := some (501 / 50), longitude := some 20,
    proximity_radius := 1 / 2, is_active := true, is_expired := false }

theorem mealNear_distance : mealNear.distance_from 10 20 =
    some (haversine (501 / 50) 20 10 20) := by
  unfold Meal.distance_from mealNear
  norm_num

theorem mealNear_haversine : haversine (501 / 50) 20 10 20 =
    2 * (Real.pi / 18000) * 6371 := by
  unfold haversine toRad
  dsimp only
  rw [show ((10 : ℚ) : ℝ) * Real.pi / 180 -
      ((501 / 50 : ℚ) : ℝ) * Real.pi / 180 = -(Real.pi / 9000) by
    push_cast; ring]
  rw [show ((20 : ℚ) : ℝ) * Real.pi / 180 -
      ((20 : ℚ) : ℝ) * Real.pi / 180 = 0 by ring]
  rw [show (-(Real.pi / 9000) : ℝ) / 2 = -(Real.pi / 18000) by ring]
  rw [show ((0 : ℝ) / 2) = 0 by norm_num]
  rw [Real.sin_zero, Real.sin_neg, neg_sq]
  have hpi := Real.pi_pos
  have hnn : (0 : ℝ) ≤ Real.sin (Real.pi / 18000) :=
    Real.sin_nonneg_of_nonneg_of_le_pi (by linarith) (by linarith)
  rw [show (0 : ℝ) ^ 2 = 0 by norm_num, mul_zero, add_zero,
    Real.sqrt_sq hnn, Real.arcsin_sin (by linarith) (by linarith)]

theorem mealNear_bbox : mealNear.inBoundingBox 10 20 5 := by
  unfold Meal.inBoundingBox mealNear latOffset lonOffset toRad
  have hpi := Real.pi_pos
  have hcos : (0 : ℝ) < Real.cos (((10 : ℚ) : ℝ) * Real.pi / 180) := by
    apply Real.cos_pos_of_mem_Ioo
    constructor
    · push_cast
      nlinarith
    · push_cast
      nlinarith
  have hoff : (0 : ℝ) ≤ ((5 : ℚ) : ℝ) /
      (111 * Real.cos (((10 : ℚ) : ℝ) * Real.pi / 180)) := by
    apply div_nonneg (by norm_num)
    nlinarith
  refine ⟨by push_cast; norm_num, by push_cast; norm_num, by linarith,
    by linarith⟩

theorem mealNear_not_within : ¬ mealNear.is_within_proximity 10 20 := by
  unfold Meal.is_within_proximity
  rw [mealNear_distance]
  dsimp only
  rw [mealNear_haversine]
  have h14 := Real.pi_gt_d6
  intro hle
  rw [show mealNear.proximity_radius = 1 / 2 from rfl] at hle
  push_cast at hle
  nlinarith

/-- C2 counterexample: for the query point (10, 20) with query radius 5 km,
`mealNear` is active, non-expired and at Haversine distance ≈ 2.22 km ≤ 5 km
from the query, so the claim requires the search to return it; but the
search's exact filter compares against the meal's own proximity_radius
(0.5 km), not the query radius, and returns the empty list. -/
theorem get_nearby_misses_meal_within_query_radius :
    mealNear.is_active = true ∧ mealNear.is_expired = false ∧
    (∃ dv : ℝ, mealNear.distance_from 10 20 = some dv ∧ dv ≤ 5) ∧
    Meal.get_nearby_meals [mealNear] 10 20 5 = some [] := by
  have h315 := Real.pi_lt_d6
  have h14 := Real.pi_gt_d6
  refine ⟨rfl, rfl, ?_, ?_⟩
  · refine ⟨haversine (501 / 50) 20 10 20, mealNear_distance, ?_⟩
    rw [mealNear_haversine]
    nlinarith
  · have hentries : nearbyEntries [mealNear] 10 20 5 = [] := by
      unfold nearbyEntries
      rw [List.filter_cons_of_pos (by
        classical
        exact decide_eq_true mealNear_bbox)]
      rw [List.filter_nil, List.filter_cons_of_neg (by
        simpa using mealNear_not_within)]
      rw [List.filter_nil, List.map_nil]
    unfold Meal.get_nearby_meals
    rw [hentries]
    rw [if_neg (by simp)]
    rw [List.mergeSort_nil]

/-- Concrete meal on the equator (latitude exactly 0). -/
def mealEquator : Meal :=
  { id := 2, provider := 1, quantity := 4, serving := 2, latitude := some 0,
    longitude := some 50, proximity_radius := 5, is_active := true,
    is_expired := false }

/-- Witness for C9 at a concrete equator meal and query point (7, 8). -/
theorem zero_coord_treated_as_missing_witness :
    (mealEquator.latitude = some 0 ∨ mealEquator.longitude = some 0) ∧
      (mealEquator.distance_from 7 8 = none ∧
        mealEquator.is_within_proximity 7 8) :=
  ⟨Or.inl rfl, zero_coord_treated_as_missing mealEquator 7 8 (Or.inl rfl)⟩

end MealSystem
